import Mathlib

/-!
Verification of the Pollution Analytics Engine of the IHC-Pollutants-Webgis
repository (the advanced-analytics helpers defined inside the `/api/ai/chat`
handler: `buildAdvancedDataContext`, `detectAnomalies`, `analyzeTrends`,
`analyzeGeographicPatterns`, `assessRisks`, `generatePredictions` and the
statistics helpers).

Embedding conventions:
* JavaScript numbers are modelled by `ℚ`.  The source's
  `calculateStandardDeviation` returns `Math.sqrt(variance)`, which is
  irrational in general; the model carries the variance (the square of the
  standard deviation) and every comparison `|v - avg| / stdDev > c` of the
  source is modelled by the equivalent comparison `(v - avg)^2 > c^2 * variance`
  (equivalent for `variance > 0`; for `variance = 0` it also agrees with the
  IEEE behaviour of the source, where the comparison is `Infinity > c`, i.e.
  true, when `v ≠ avg`, and `NaN > c`, i.e. false, when `v = avg`).
  Theorems about z-scores are stated over `ℝ` with `Real.sqrt`.
* `sample_dt` is modelled as a timestamp in milliseconds (`ℕ`); the source's
  day-truncation `sample_dt.split('T')[0]` is `dayOf` (division by the number
  of milliseconds per day).  Null `sample_dt` values are not modelled.
* `calculateDistance` in the source is the haversine formula evaluated with
  floating-point trigonometry; its value is irrational in general, so the
  geographic analyzer takes the distance function as a parameter.  Concrete
  instantiations use coordinates at which the haversine value is exact
  (identical coordinates have distance 0).
* JavaScript objects used as dictionaries (`stationGroups`, `dateGroups`)
  iterate their string keys in insertion order; this is modelled by
  first-occurrence grouping.  (The numeric reordering JavaScript applies to
  integer-like keys is not modelled.)
* `Array.prototype.sort` is stable in JavaScript; it is modelled by
  `List.mergeSort`, which is also stable.  `toFixed` string formatting of
  returned numbers is display-only and is not modelled: fields hold the exact
  values.  Display-only `description` / `recommendation` strings are omitted.
-/

namespace IHC

/-- Reading models one pollution measurement row of the input array
(`station_id, station_name, lat, lon, sample_dt, pol_a, pol_b`); the unused
`unit` column is omitted. -/
structure Reading where
  station_id : String
  station_name : String
  lat : ℚ
  lon : ℚ
  sample_dt : ℕ
  pol_a : ℚ
  pol_b : ℚ
deriving DecidableEq, Inhabited

/-- Milliseconds per calendar day. -/
def msPerDay : ℕ := 86400000

/-- Day bucket of a timestamp, modelling `sample_dt.split('T')[0]`. -/
def dayOf (t : ℕ) : ℕ := t / msPerDay

/-- Model of the source's `calculateVariance`: population variance
`mean((x - avg)^2)`. -/
def calculateVariance (values : List ℚ) : ℚ :=
  let avg := values.sum / values.length
  (values.map (fun v => (v - avg) ^ 2)).sum / values.length

/-- Maximum of a list, modelling `Math.max(...values)` on a non-empty array. -/
def listMax : List ℚ → ℚ
  | [] => 0
  | v :: vs => vs.foldl max v

/-- Minimum of a list, modelling `Math.min(...values)` on a non-empty array. -/
def listMin : List ℚ → ℚ
  | [] => 0
  | v :: vs => vs.foldl min v

/-- Per-pollutant statistics (`pollutionStats.polA` / `.polB`).  The source
stores `stdDev = Math.sqrt(variance)`; the model stores the variance
(`stdDevSq`).  The empty-input literal of `buildAdvancedDataContext` has no
`stdDev` field at all, which is modelled by `none`. -/
structure PollStat where
  avg : ℚ
  max : ℚ
  min : ℚ
  high_count : ℕ
  stdDevSq : Option ℚ
deriving DecidableEq

/-- Builder for the per-pollutant statistics of the non-empty path of
`buildAdvancedDataContext`. -/
def mkPollStat (values : List ℚ) : PollStat :=
  { avg := values.sum / values.length
    max := listMax values
    min := listMin values
    high_count := (values.filter (fun v => decide (7 < v))).length
    stdDevSq := some (calculateVariance values) }

/-- Pair of pollutant statistics (`pollutionStats`). -/
structure PollutionStats where
  polA : PollStat
  polB : PollStat
deriving DecidableEq

/-- Statistics of a reading list, as computed by `buildAdvancedDataContext`. -/
def mkStats (xs : List Reading) : PollutionStats :=
  { polA := mkPollStat (xs.map (·.pol_a))
    polB := mkPollStat (xs.map (·.pol_b)) }

/-- Severity of an anomaly. -/
inductive Severity where
  | moderate
  | extreme
deriving DecidableEq

/-- Guard `zScore > c` of `detectAnomalies`, where
`zScore = Math.abs((v - avg) / stdDev)` and `stdDevSq` is the squared standard
deviation.  For `stdDevSq = some s2` with `s2 > 0` the comparison
`(v - avg)^2 > c^2 * s2` is equivalent to `|v - avg| / sqrt s2 > c`; for
`s2 = 0` it agrees with the source's IEEE semantics (`Infinity > c` true when
`v ≠ avg`, `NaN > c` false when `v = avg`); for `none` (undefined `stdDev`)
the source's comparison is `NaN > c`, i.e. false. -/
def zGuard (v avg : ℚ) (stdDevSq : Option ℚ) (c : ℚ) : Bool :=
  match stdDevSq with
  | none => false
  | some s2 => decide (c ^ 2 * s2 < (v - avg) ^ 2)

/-- Anomaly entry pushed by `detectAnomalies`.  `zsq` is the squared z-score
(the source stores `zScore.toFixed(2)`); the `description` string is
omitted. -/
structure Anomaly where
  stationId : String
  stationName : String
  date : ℕ
  pollutant : String
  value : ℚ
  zsq : ℚ
  severity : Severity
deriving DecidableEq

/-- Entry built by `detectAnomalies` for one (reading, pollutant) pair. -/
def anomalyEntry (pollName : String) (v avg : ℚ) (stdDevSq : Option ℚ)
    (r : Reading) : Anomaly :=
  { stationId := r.station_id
    stationName := r.station_name
    date := dayOf r.sample_dt
    pollutant := pollName
    value := v
    zsq := (v - avg) ^ 2 / stdDevSq.getD 0
    severity := if zGuard v avg stdDevSq 3 then .extreme else .moderate }

/-- Contribution of a single reading to the anomaly list: the source's
`forEach` body, which checks pollutant A and then pollutant B against the
threshold `zScoreThreshold = 2.5`. -/
def recordAnomalies (stats : PollutionStats) (r : Reading) : List Anomaly :=
  (if zGuard r.pol_a stats.polA.avg stats.polA.stdDevSq (5/2) then
    [anomalyEntry "Pollution A" r.pol_a stats.polA.avg stats.polA.stdDevSq r]
  else []) ++
  (if zGuard r.pol_b stats.polB.avg stats.polB.stdDevSq (5/2) then
    [anomalyEntry "Pollution B" r.pol_b stats.polB.avg stats.polB.stdDevSq r]
  else [])

/-- Anomaly list before the final sort-and-truncate (the `anomalies` array of
`detectAnomalies` after the `forEach` loop). -/
def detectAnomaliesRaw (stats : PollutionStats) : List Reading → List Anomaly
  | [] => []
  | r :: rs => recordAnomalies stats r ++ detectAnomaliesRaw stats rs

/-- Descending-z-score comparator of
`anomalies.sort((a, b) => b.zScore - a.zScore)`: `a` may stay before `b`
exactly when the comparator is `≤ 0`.  Squared z-scores compare the same way
as the (nonnegative) z-scores themselves. -/
def zDesc (a b : Anomaly) : Bool := decide (b.zsq ≤ a.zsq)

/-- Model of `detectAnomalies`: collect the per-reading entries, sort
descending by z-score and keep the top 10 (`.slice(0, 10)`). -/
def detectAnomalies (stationData : List Reading) (stats : PollutionStats) :
    List Anomaly :=
  ((detectAnomaliesRaw stats stationData).mergeSort zDesc).take 10

/-! Grouping by a key in first-occurrence order, modelling a JavaScript object
used as a dictionary with string keys. -/

/-- Keys of a list in order of first occurrence. -/
def occKeys [DecidableEq κ] (key : α → κ) (xs : List α) : List κ :=
  xs.foldl (fun acc x => if key x ∈ acc then acc else acc ++ [key x]) []

/-- Group a list by a key, keys in first-occurrence order, each group in
input order (the `reduce`-built dictionaries of the source). -/
def groupByKey [DecidableEq κ] (key : α → κ) (xs : List α) :
    List (κ × List α) :=
  (occKeys key xs).map (fun k => (k, xs.filter (fun x => decide (key x = k))))

/-! Trend analysis (`analyzeTrends`, `calculateTrendSlope`). -/

/-- Direction of a trend. -/
inductive Direction where
  | increasing
  | decreasing
deriving DecidableEq

/-- Significance of a trend. -/
inductive Significance where
  | moderate
  | high
deriving DecidableEq

/-- TrendRecord emitted by `analyzeTrends`; the source stores
`slope.toFixed(4)` and a `description` string, both display formatting. -/
structure TrendRecord where
  pollutant : String
  direction : Direction
  slope : ℚ
  significance : Significance
deriving DecidableEq

/-- One entry of the `dailyAverages` array of `analyzeTrends`. -/
structure DayAvg where
  day : ℕ
  avgPolA : ℚ
  avgPolB : ℚ
  recordCount : ℕ
deriving DecidableEq

/-- Per-day averages of `analyzeTrends`: group by calendar day, average each
pollutant, sort chronologically. -/
def dailyAverages (stationData : List Reading) : List DayAvg :=
  ((groupByKey (fun r => dayOf r.sample_dt) stationData).map
    (fun p =>
      { day := p.1
        avgPolA := (p.2.map (·.pol_a)).sum / p.2.length
        avgPolB := (p.2.map (·.pol_b)).sum / p.2.length
        recordCount := p.2.length })).mergeSort
    (fun a b => decide (a.day ≤ b.day))

/-- Model of `calculateTrendSlope`: closed-form least-squares slope over a
point list. -/
def calculateTrendSlope (points : List (ℚ × ℚ)) : ℚ :=
  let n : ℚ := points.length
  let sumX := (points.map (·.1)).sum
  let sumY := (points.map (·.2)).sum
  let sumXY := (points.map (fun p => p.1 * p.2)).sum
  let sumXX := (points.map (fun p => p.1 * p.1)).sum
  (n * sumXY - sumX * sumY) / (n * sumXX - sumX * sumX)

/-- Least-squares slope of the pollutant-A daily means over bucket indices. -/
def slopeA (stationData : List Reading) : ℚ :=
  calculateTrendSlope
    ((dailyAverages stationData).mapIdx fun i d => ((i : ℚ), d.avgPolA))

/-- Least-squares slope of the pollutant-B daily means over bucket indices. -/
def slopeB (stationData : List Reading) : ℚ :=
  calculateTrendSlope
    ((dailyAverages stationData).mapIdx fun i d => ((i : ℚ), d.avgPolB))

/-- TrendRecord built by `analyzeTrends` for a pollutant with slope `s`. -/
def mkTrend (pollName : String) (s : ℚ) : TrendRecord :=
  { pollutant := pollName
    direction := if 0 < s then .increasing else .decreasing
    slope := s
    significance := if 1/20 < |s| then .high else .moderate }

/-- Model of `analyzeTrends`: with at least 3 day buckets, emit a record per
pollutant whose slope magnitude exceeds 0.01. -/
def analyzeTrends (stationData : List Reading) : List TrendRecord :=
  if 3 ≤ (dailyAverages stationData).length then
    (if 1/100 < |slopeA stationData| then
      [mkTrend "Pollution A" (slopeA stationData)] else []) ++
    (if 1/100 < |slopeB stationData| then
      [mkTrend "Pollution B" (slopeB stationData)] else [])
  else []

/-! Station summaries and geographic pattern analysis. -/

/-- Location of a station. -/
structure Location where
  lat : ℚ
  lon : ℚ
deriving DecidableEq

/-- Risk level of a station summary. -/
inductive Risk where
  | low
  | medium
  | high
deriving DecidableEq

/-- StationSummary entry of `buildAdvancedDataContext`. -/
structure StationSummary where
  id : String
  name : String
  location : Location
  avgPolA : ℚ
  avgPolB : ℚ
  recordCount : ℕ
  riskLevel : Risk
  variance : ℚ
deriving DecidableEq

/-- Summary of one station group (`records` is the non-empty list of its
readings; `records[0]` supplies name and coordinates). -/
def mkStationSummary (stationId : String) (records : List Reading) :
    StationSummary :=
  let avgPolA := (records.map (·.pol_a)).sum / records.length
  let avgPolB := (records.map (·.pol_b)).sum / records.length
  let maxPol := max avgPolA avgPolB
  { id := stationId
    name := records.headI.station_name
    location := { lat := records.headI.lat, lon := records.headI.lon }
    avgPolA := avgPolA
    avgPolB := avgPolB
    recordCount := records.length
    riskLevel := if 7 < maxPol then .high else if 3 < maxPol then .medium
      else .low
    variance :=
      calculateVariance (records.map (·.pol_a) ++ records.map (·.pol_b)) }

/-- Station summaries of a reading list, one per distinct `station_id` in
first-occurrence order. -/
def stationSummaryOf (stationData : List Reading) : List StationSummary :=
  (groupByKey (·.station_id) stationData).map fun p =>
    mkStationSummary p.1 p.2

/-- GeoPattern: a hotspot or an isolated-risk pattern; the constant
`severity` and the `description` strings of the source are omitted. -/
inductive GeoPattern where
  | hotspot (center : StationSummary) (nearbyStations : List StationSummary)
  | isolated (station : StationSummary)
deriving DecidableEq

/-- Model of `analyzeGeographicPatterns`.  `calculateDistance` in the source
is the haversine formula (Earth radius 6371 km) evaluated with float
trigonometry; its value is irrational in general, so the analyzer takes the
distance function as a parameter. -/
def analyzeGeographicPatterns (calculateDistance : Location → Location → ℚ)
    (stationSummary : List StationSummary) : List GeoPattern :=
  let highRiskStations :=
    stationSummary.filter (fun s => decide (s.riskLevel = .high))
  let hotspots := highRiskStations.foldr
    (fun station acc =>
      let nearbyHighRisk := highRiskStations.filter (fun other =>
        decide (other.id ≠ station.id ∧
          calculateDistance station.location other.location < 50))
      (if nearbyHighRisk ≠ [] then
        [GeoPattern.hotspot station nearbyHighRisk] else []) ++ acc)
    []
  let isolatedRisks := highRiskStations.filter (fun station =>
    decide ((stationSummary.filter (fun other =>
      decide (other.id ≠ station.id ∧
        calculateDistance station.location other.location < 25 ∧
        (other.riskLevel = .high ∨ other.riskLevel = .medium)))).length = 0))
  hotspots ++ isolatedRisks.map GeoPattern.isolated

/-! Risk assessment (`assessRisks`). -/

/-- Overall risk level. -/
inductive OverallRisk where
  | low
  | moderate
  | high
  | critical
deriving DecidableEq

/-- RiskAssessment returned by `assessRisks`; the source stores
`exceedanceRate.toFixed(1)` (display formatting, not modelled). -/
structure RiskAssessment where
  overallRisk : OverallRisk
  exceedanceRate : ℚ
  highRiskStations : ℕ
  mediumRiskStations : ℕ
  criticalReadings : ℕ
  riskFactors : List String
deriving DecidableEq

/-- Model of `assessRisks`. -/
def assessRisks (stationData : List Reading)
    (stationSummary : List StationSummary) : RiskAssessment :=
  let totalHighRisk :=
    (stationSummary.filter (fun s => decide (s.riskLevel = .high))).length
  let totalMediumRisk :=
    (stationSummary.filter (fun s => decide (s.riskLevel = .medium))).length
  let exceedanceRate : ℚ :=
    ((stationData.filter (fun r => decide (7 < r.pol_a ∨ 7 < r.pol_b))).length
      / stationData.length) * 100
  { overallRisk :=
      if 30 < exceedanceRate then .critical
      else if 15 < exceedanceRate then .high
      else if 5 < exceedanceRate then .moderate
      else .low
    exceedanceRate := exceedanceRate
    highRiskStations := totalHighRisk
    mediumRiskStations := totalMediumRisk
    criticalReadings :=
      (stationData.filter (fun r => decide (10 < r.pol_a ∨ 10 < r.pol_b))).length
    riskFactors :=
      (if 20 < exceedanceRate then ["High pollution exceedance rate"] else []) ++
      (if 3 < totalHighRisk then ["Multiple high-risk stations"] else []) ++
      (if stationData.any (fun r => decide (15 < r.pol_a ∨ 15 < r.pol_b)) then
        ["Extreme pollution readings detected"] else []) }

/-! Predictive analysis (`generatePredictions`). -/

/-- Confidence of a short-term forecast. -/
inductive Confidence where
  | moderate
  | high
deriving DecidableEq

/-- Per-pollutant short-term forecast; the source stores
`projectedLevel = recentAvg.toFixed(2)`. -/
structure PollutantForecast where
  trend : Direction
  projectedLevel : ℚ
  confidence : Confidence
deriving DecidableEq

/-- The `predictions.shortTerm` object. -/
structure ShortTerm where
  pollutionA : PollutantForecast
  pollutionB : PollutantForecast
deriving DecidableEq

/-- The `predictions.riskForecast` object; the `recommendation` string is
display-only and omitted. -/
structure RiskForecast where
  exceedanceProbability : ℚ
  riskLevel : OverallRisk
deriving DecidableEq

/-- The `predictions` object: `{}` when the recent window is too small is
modelled by both fields `none`. -/
structure Predictions where
  shortTerm : Option ShortTerm
  riskForecast : Option RiskForecast
deriving DecidableEq

/-- Descending-date comparator of the source's
`sort((a, b) => new Date(b.sample_dt).getTime() - new Date(a.sample_dt).getTime())`:
`a` may stay before `b` exactly when the comparator is `≤ 0`. -/
def byDateDesc (a b : Reading) : Bool := decide (b.sample_dt ≤ a.sample_dt)

/-- Recent window of `generatePredictions`: readings sorted descending by
sample date, truncated to `min(100, floor(0.3 * n))` records.
`Math.floor(n * 0.3)` equals `3 * n / 10` in natural division: the float
product `n * 0.3` rounds to within a relative error below half an ulp of
`3n/10`, so its floor agrees with the exact floor for every array length. -/
def recentWindow (stationData : List Reading) : List Reading :=
  (stationData.mergeSort byDateDesc).take (min 100 (3 * stationData.length / 10))

/-- Mean of pollutant A over the recent window. -/
def recentAvgA (stationData : List Reading) : ℚ :=
  ((recentWindow stationData).map (·.pol_a)).sum / (recentWindow stationData).length

/-- Mean of pollutant B over the recent window. -/
def recentAvgB (stationData : List Reading) : ℚ :=
  ((recentWindow stationData).map (·.pol_b)).sum / (recentWindow stationData).length

/-- The `riskProbability` of `generatePredictions`: percentage of
recent-window readings exceeding 7 in either pollutant. -/
def riskProbability (stationData : List Reading) : ℚ :=
  (((recentWindow stationData).filter
      (fun r => decide (7 < r.pol_a ∨ 7 < r.pol_b))).length
    / (recentWindow stationData).length) * 100

/-- The `predictions.shortTerm` object built on the populated path. -/
def forecastFor (stationData : List Reading) (stats : PollutionStats) :
    ShortTerm :=
  let conf : Confidence :=
    if 50 < (recentWindow stationData).length then .high else .moderate
  { pollutionA :=
      { trend := if stats.polA.avg < recentAvgA stationData then .increasing
          else .decreasing
        projectedLevel := recentAvgA stationData
        confidence := conf }
    pollutionB :=
      { trend := if stats.polB.avg < recentAvgB stationData then .increasing
          else .decreasing
        projectedLevel := recentAvgB stationData
        confidence := conf } }

/-- The `predictions.riskForecast` object built on the populated path. -/
def riskForecastFor (stationData : List Reading) : RiskForecast :=
  { exceedanceProbability := riskProbability stationData
    riskLevel :=
      if 40 < riskProbability stationData then .high
      else if 20 < riskProbability stationData then .moderate
      else .low }

/-- Model of `generatePredictions`: forecasts only when the recent window has
more than 10 records.  Note the source sorts `stationData` itself in place
(`Array.prototype.sort`); the resulting mutation of the caller's array is
modelled by `analyzeCall` below. -/
def generatePredictions (stationData : List Reading)
    (stats : PollutionStats) : Predictions :=
  if 10 < (recentWindow stationData).length then
    { shortTerm := some (forecastFor stationData stats)
      riskForecast := some (riskForecastFor stationData) }
  else { shortTerm := none, riskForecast := none }

/-! Context builder (`buildAdvancedDataContext`). -/

/-- The `advancedAnalytics` object. -/
structure AdvancedAnalytics where
  anomalies : List Anomaly
  trends : List TrendRecord
  geographicPatterns : List GeoPattern
  riskAssessment : Option RiskAssessment
  predictions : Predictions
deriving DecidableEq

/-- DataContext returned by `buildAdvancedDataContext`.  `dateRange` holds the
day buckets of the earliest and latest sample dates (`none` for empty input,
where the source uses empty strings). -/
structure DataContext where
  totalStations : ℕ
  totalRecords : ℕ
  dateRange : Option (ℕ × ℕ)
  pollutionStats : PollutionStats
  stationSummary : List StationSummary
  advancedAnalytics : AdvancedAnalytics
deriving DecidableEq

/-- Date range of the input: day of the first and last element of the sorted
valid sample dates.  (The source sorts an array of `Date` objects with the
default string comparator; the extremes it picks coincide with the
chronological ones for same-format dates, and no claim depends on the
difference.) -/
def dateRangeOf (stationData : List Reading) : Option (ℕ × ℕ) :=
  match (stationData.map (·.sample_dt)).mergeSort (fun a b => decide (a ≤ b)) with
  | [] => none
  | d :: ds => some (dayOf d, dayOf (ds.getLastD d))

/-- The fully zeroed/empty context literal returned for empty input; the
`stdDev`-less `pollutionStats` literal is modelled by `stdDevSq := none`. -/
def emptyContext : DataContext :=
  { totalStations := 0
    totalRecords := 0
    dateRange := none
    pollutionStats :=
      { polA := { avg := 0, max := 0, min := 0, high_count := 0, stdDevSq := none }
        polB := { avg := 0, max := 0, min := 0, high_count := 0, stdDevSq := none } }
    stationSummary := []
    advancedAnalytics :=
      { anomalies := []
        trends := []
        geographicPatterns := []
        riskAssessment := none
        predictions := { shortTerm := none, riskForecast := none } } }

/-- Model of `buildAdvancedDataContext` (value returned to the caller).
`calculateDistance` is the distance function used by the geographic
analyzer (haversine in the source, see `analyzeGeographicPatterns`). -/
def buildAdvancedDataContext (calculateDistance : Location → Location → ℚ)
    (stationData : List Reading) : DataContext :=
  if stationData.isEmpty then emptyContext
  else
    let pollutionStats := mkStats stationData
    let stationSummary := stationSummaryOf stationData
    { totalStations := (occKeys (·.station_id) stationData).length
      totalRecords := stationData.length
      dateRange := dateRangeOf stationData
      pollutionStats := pollutionStats
      stationSummary := stationSummary
      advancedAnalytics :=
        { anomalies := detectAnomalies stationData pollutionStats
          trends := analyzeTrends stationData
          geographicPatterns :=
            analyzeGeographicPatterns calculateDistance stationSummary
          riskAssessment := some (assessRisks stationData stationSummary)
          predictions := generatePredictions stationData pollutionStats } }

/-- One call of `buildAdvancedDataContext` together with its frame effect on
the caller's array: `generatePredictions` applies `Array.prototype.sort` to
`stationData` itself, so after a call on a non-empty array the caller's array
is sorted descending by sample date (every analytic of the same call reads
the array before that sort runs). -/
def analyzeCall (calculateDistance : Location → Location → ℚ)
    (stationData : List Reading) : DataContext × List Reading :=
  (buildAdvancedDataContext calculateDistance stationData,
   if stationData.isEmpty then stationData
   else stationData.mergeSort byDateDesc)

/-! IEEE semantics of the z-score at zero standard deviation.  The source
computes `Math.abs((value - avg) / stdDev)` with no finiteness guard; for
`stdDev = 0` JavaScript produces `Infinity` (value ≠ avg) or `NaN`
(value = avg), which then flow into the `> 2.5` / `> 3` comparisons. -/

/-- JsNum: a JavaScript number that is finite, positive infinity, or NaN
(the cases reachable from `Math.abs`). -/
inductive JsNum where
  | fin (q : ℚ)
  | inf
  | nan
deriving DecidableEq

/-- Model of the source expression `Math.abs((value - avg) / stdDev)` with
IEEE division semantics: division by zero gives `Infinity` for a nonzero
numerator and `NaN` for a zero numerator. -/
def jsZScore (value avg stdDev : ℚ) : JsNum :=
  if stdDev = 0 then (if value = avg then .nan else .inf)
  else .fin |(value - avg) / stdDev|

/-- IEEE comparison `x > c` of a JsNum with a finite threshold: any
comparison against `NaN` is false, and `Infinity > c` is true. -/
def jsGt (x : JsNum) (c : ℚ) : Bool :=
  match x with
  | .fin q => decide (c < q)
  | .inf => true
  | .nan => false

/-- Reading of station `s1` with zero pollutant values at timestamp `t`. -/
def zeroR (t : ℕ) : Reading :=
  { station_id := "s1"
    station_name := "Station One"
    lat := 0
    lon := 0
    sample_dt := t
    pol_a := 0
    pol_b := 0 }

/-- The outlier reading of `ex1`. -/
def ex1r : Reading :=
  { station_id := "s1"
    station_name := "Station One"
    lat := 0
    lon := 0
    sample_dt := 12
    pol_a := 13
    pol_b := 13 }

/-- Concrete reading list for witnesses: thirteen readings of one station,
twelve zero values and one outlier 13 for each pollutant (mean 1,
variance 12, z-score of the outlier `12 / sqrt 12 ≈ 3.46`). -/
def ex1 : List Reading :=
  [zeroR 0, zeroR 1, zeroR 2, zeroR 3, zeroR 4, zeroR 5, zeroR 6, zeroR 7,
    zeroR 8, zeroR 9, zeroR 10, zeroR 11, ex1r]

/-- Concrete distance function for counterexamples: 0 between identical
coordinates (where the haversine value is exactly 0) and 1000 km otherwise. -/
def exDist (a b : Location) : ℚ := if a = b then 0 else 1000

/-- High-risk summary at the origin. -/
def exS1 : StationSummary :=
  { id := "g1", name := "G One", location := { lat := 0, lon := 0 }
    avgPolA := 9, avgPolB := 9, recordCount := 1, riskLevel := .high
    variance := 0 }

/-- Low-risk summary at the same coordinates as `exS1`. -/
def exS2 : StationSummary :=
  { id := "g2", name := "G Two", location := { lat := 0, lon := 0 }
    avgPolA := 1, avgPolB := 1, recordCount := 1, riskLevel := .low
    variance := 0 }

/-- Summary list with one high-risk station and one low-risk station at the
same place. -/
def exGeo : List StationSummary := [exS1, exS2]

/-- Reading of station `alpha` on day 0. -/
def r3a : Reading :=
  { station_id := "alpha", station_name := "Alpha", lat := 0, lon := 0
    sample_dt := 0, pol_a := 1, pol_b := 2 }

/-- Reading of station `beta` with a later sample date than `r3a`. -/
def r3b : Reading :=
  { station_id := "beta", station_name := "Beta", lat := 0, lon := 0
    sample_dt := 1, pol_a := 3, pol_b := 4 }

/-- Two-station input in ascending date order: the first analysis call sorts
it descending, swapping the first occurrences of the two station ids. -/
def ex3 : List Reading := [r3a, r3b]

/-- Two readings of one station, one of them exceeding both thresholds
(exceedance rate 50%). -/
def ex4 : List Reading :=
  [{ station_id := "a", station_name := "A", lat := 0, lon := 0
     sample_dt := 0, pol_a := 8, pol_b := 0 },
   { station_id := "a", station_name := "A", lat := 0, lon := 0
     sample_dt := 1, pol_a := 1, pol_b := 1 }]

/-- Three readings on three consecutive days with daily means 0, 1, 2 for
both pollutants (least-squares slope 1). -/
def ex5 : List Reading :=
  [{ station_id := "a", station_name := "A", lat := 0, lon := 0
     sample_dt := 0, pol_a := 0, pol_b := 0 },
   { station_id := "a", station_name := "A", lat := 0, lon := 0
     sample_dt := msPerDay, pol_a := 1, pol_b := 1 },
   { station_id := "a", station_name := "A", lat := 0, lon := 0
     sample_dt := 2 * msPerDay, pol_a := 2, pol_b := 2 }]

/-- Forty readings in descending date order; the 20 most recent have
pollutant A equal to 9, the rest 1, so the 12-record recent window is all
high readings. -/
def ex6 : List Reading :=
  (List.range 40).map fun i =>
    { station_id := "a", station_name := "A", lat := 0, lon := 0
      sample_dt := 1000 - i, pol_a := if i < 20 then 9 else 1, pol_b := 0 }

/-! Helper lemmas. -/

/-- Population variance is nonnegative. -/
lemma calculateVariance_nonneg (values : List ℚ) :
    0 ≤ calculateVariance values := by
  unfold calculateVariance
  apply div_nonneg _ (by positivity)
  apply List.sum_nonneg
  intro x hx
  simp only [List.mem_map] at hx
  obtain ⟨v, _, rfl⟩ := hx
  positivity

/-- The detector's guard over `ℚ` coincides with the source's z-score
comparison over `ℝ` whenever the variance is positive. -/
lemma zGuard_iff_real (v avg s2 c : ℚ) (hpos : 0 < s2) (hc : 0 ≤ c) :
    zGuard v avg (some s2) c = true ↔
      (c : ℝ) < |(v : ℝ) - (avg : ℝ)| / Real.sqrt (s2 : ℝ) := by
  have hs2R : (0 : ℝ) < (s2 : ℝ) := by exact_mod_cast hpos
  have hσ : (0 : ℝ) < Real.sqrt (s2 : ℝ) := Real.sqrt_pos.mpr hs2R
  have hsq : Real.sqrt (s2 : ℝ) ^ 2 = (s2 : ℝ) := Real.sq_sqrt hs2R.le
  rw [lt_div_iff₀ hσ]
  have hcR : (0 : ℝ) ≤ (c : ℝ) := by exact_mod_cast hc
  constructor
  · intro h
    simp only [zGuard, decide_eq_true_eq] at h
    have h' : (c : ℝ) ^ 2 * (s2 : ℝ) < ((v : ℝ) - (avg : ℝ)) ^ 2 := by
      exact_mod_cast h
    nlinarith [abs_nonneg ((v : ℝ) - (avg : ℝ)),
      sq_abs ((v : ℝ) - (avg : ℝ)), mul_nonneg hcR hσ.le]
  · intro h
    simp only [zGuard, decide_eq_true_eq]
    have h2 : ((c : ℝ) * Real.sqrt (s2 : ℝ)) ^ 2 <
        |(v : ℝ) - (avg : ℝ)| ^ 2 :=
      pow_lt_pow_left₀ h (mul_nonneg hcR hσ.le) two_ne_zero
    have h3 : (c : ℝ) ^ 2 * (s2 : ℝ) < ((v : ℝ) - (avg : ℝ)) ^ 2 := by
      nlinarith [sq_abs ((v : ℝ) - (avg : ℝ))]
    exact_mod_cast h3

/-- Membership in the raw anomaly list is membership in some reading's
contribution. -/
lemma mem_detectAnomaliesRaw (stats : PollutionStats) (xs : List Reading)
    (a : Anomaly) :
    a ∈ detectAnomaliesRaw stats xs ↔ ∃ r ∈ xs, a ∈ recordAnomalies stats r := by
  induction xs with
  | nil => simp [detectAnomaliesRaw]
  | cons r rs ih => simp [detectAnomaliesRaw, ih]

/-- Value field of an anomaly entry. -/
lemma anomalyEntry_value (n : String) (v avg : ℚ) (s : Option ℚ)
    (r : Reading) : (anomalyEntry n v avg s r).value = v := rfl

/-- Pollutant field of an anomaly entry. -/
lemma anomalyEntry_pollutant (n : String) (v avg : ℚ) (s : Option ℚ)
    (r : Reading) : (anomalyEntry n v avg s r).pollutant = n := rfl

/-- Characterization of membership in a reading's anomaly contribution for
the pollutant-A entry of another reading: possible exactly when the guard
holds for an equal pollutant-A value. -/
lemma entryA_mem_recordAnomalies (stats : PollutionStats) (r r' : Reading) :
    anomalyEntry "Pollution A" r.pol_a stats.polA.avg stats.polA.stdDevSq r
        ∈ recordAnomalies stats r' ↔
      anomalyEntry "Pollution A" r.pol_a stats.polA.avg stats.polA.stdDevSq r
          = anomalyEntry "Pollution A" r'.pol_a stats.polA.avg
              stats.polA.stdDevSq r' ∧
        zGuard r'.pol_a stats.polA.avg stats.polA.stdDevSq (5/2) = true := by
  unfold recordAnomalies
  constructor
  · intro h
    rcases List.mem_append.mp h with h1 | h2
    · by_cases hg : zGuard r'.pol_a stats.polA.avg stats.polA.stdDevSq (5/2) = true
      · simp only [hg, if_true, List.mem_singleton] at h1
        exact ⟨h1, hg⟩
      · simp [hg] at h1
    · by_cases hg : zGuard r'.pol_b stats.polB.avg stats.polB.stdDevSq (5/2) = true
      · simp only [hg, if_true, List.mem_singleton] at h2
        have := congrArg Anomaly.pollutant h2
        simp [anomalyEntry_pollutant] at this
      · simp [hg] at h2
  · rintro ⟨heq, hg⟩
    exact List.mem_append.mpr (Or.inl (by simp [hg, heq]))

/-- Characterization of membership in a reading's anomaly contribution for
the pollutant-B entry of another reading. -/
lemma entryB_mem_recordAnomalies (stats : PollutionStats) (r r' : Reading) :
    anomalyEntry "Pollution B" r.pol_b stats.polB.avg stats.polB.stdDevSq r
        ∈ recordAnomalies stats r' ↔
      anomalyEntry "Pollution B" r.pol_b stats.polB.avg stats.polB.stdDevSq r
          = anomalyEntry "Pollution B" r'.pol_b stats.polB.avg
              stats.polB.stdDevSq r' ∧
        zGuard r'.pol_b stats.polB.avg stats.polB.stdDevSq (5/2) = true := by
  unfold recordAnomalies
  constructor
  · intro h
    rcases List.mem_append.mp h with h1 | h2
    · by_cases hg : zGuard r'.pol_a stats.polA.avg stats.polA.stdDevSq (5/2) = true
      · simp only [hg, if_true, List.mem_singleton] at h1
        have := congrArg Anomaly.pollutant h1
        simp [anomalyEntry_pollutant] at this
      · simp [hg] at h1
    · by_cases hg : zGuard r'.pol_b stats.polB.avg stats.polB.stdDevSq (5/2) = true
      · simp only [hg, if_true, List.mem_singleton] at h2
        exact ⟨h2, hg⟩
      · simp [hg] at h2
  · rintro ⟨heq, hg⟩
    exact List.mem_append.mpr (Or.inr (by simp [hg, heq]))

/-- Membership of a reading's pollutant entry in the raw anomaly list is
equivalent to the guard at that reading's value, for readings of the list. -/
lemma entryA_mem_raw_iff (xs : List Reading) (r : Reading) (hr : r ∈ xs) :
    anomalyEntry "Pollution A" r.pol_a (mkStats xs).polA.avg
        (mkStats xs).polA.stdDevSq r ∈ detectAnomaliesRaw (mkStats xs) xs ↔
      zGuard r.pol_a (mkStats xs).polA.avg (mkStats xs).polA.stdDevSq (5/2)
        = true := by
  rw [mem_detectAnomaliesRaw]
  constructor
  · rintro ⟨r', _, hmem⟩
    obtain ⟨heq, hg⟩ := (entryA_mem_recordAnomalies (mkStats xs) r r').mp hmem
    have hv : r.pol_a = r'.pol_a := congrArg Anomaly.value heq
    rwa [hv]
  · intro hg
    exact ⟨r, hr, (entryA_mem_recordAnomalies (mkStats xs) r r).mpr ⟨rfl, hg⟩⟩

/-- Membership of a reading's pollutant-B entry in the raw anomaly list. -/
lemma entryB_mem_raw_iff (xs : List Reading) (r : Reading) (hr : r ∈ xs) :
    anomalyEntry "Pollution B" r.pol_b (mkStats xs).polB.avg
        (mkStats xs).polB.stdDevSq r ∈ detectAnomaliesRaw (mkStats xs) xs ↔
      zGuard r.pol_b (mkStats xs).polB.avg (mkStats xs).polB.stdDevSq (5/2)
        = true := by
  rw [mem_detectAnomaliesRaw]
  constructor
  · rintro ⟨r', _, hmem⟩
    obtain ⟨heq, hg⟩ := (entryB_mem_recordAnomalies (mkStats xs) r r').mp hmem
    have hv : r.pol_b = r'.pol_b := congrArg Anomaly.value heq
    rwa [hv]
  · intro hg
    exact ⟨r, hr, (entryB_mem_recordAnomalies (mkStats xs) r r).mpr ⟨rfl, hg⟩⟩

/-- The `stdDevSq` field of the computed statistics. -/
lemma mkStats_polA_stdDevSq (xs : List Reading) :
    (mkStats xs).polA.stdDevSq = some (calculateVariance (xs.map (·.pol_a))) :=
  rfl

/-- The `stdDevSq` field of the computed pollutant-B statistics. -/
lemma mkStats_polB_stdDevSq (xs : List Reading) :
    (mkStats xs).polB.stdDevSq = some (calculateVariance (xs.map (·.pol_b))) :=
  rfl

/-- Severity of an entry is `extreme` exactly when the guard at threshold 3
holds. -/
lemma anomalyEntry_severity_extreme (n : String) (v avg : ℚ) (s : Option ℚ)
    (r : Reading) :
    (anomalyEntry n v avg s r).severity = .extreme ↔
      zGuard v avg s 3 = true := by
  unfold anomalyEntry
  by_cases hg : zGuard v avg s 3 = true <;> simp [hg]

/-- C1: for a reading sequence with nonzero per-pollutant standard deviation,
the anomaly detector collects an entry for a (reading, pollutant) pair —
before the top-10 truncation — if and only if the pollutant value's z-score
`|value - mean| / stdDev` strictly exceeds 2.5, and the entry's severity is
`extreme` if and only if the z-score strictly exceeds 3 (a z-score of exactly
3 yields `moderate`). -/
theorem anomaly_threshold_strict (xs : List Reading) (r : Reading)
    (hr : r ∈ xs)
    (hA : calculateVariance (xs.map (·.pol_a)) ≠ 0)
    (hB : calculateVariance (xs.map (·.pol_b)) ≠ 0) :
    (anomalyEntry "Pollution A" r.pol_a (mkStats xs).polA.avg
        (mkStats xs).polA.stdDevSq r ∈ detectAnomaliesRaw (mkStats xs) xs ↔
      (5/2 : ℝ) < |(r.pol_a : ℝ) - ((mkStats xs).polA.avg : ℝ)| /
        Real.sqrt (calculateVariance (xs.map (·.pol_a)) : ℝ)) ∧
    ((anomalyEntry "Pollution A" r.pol_a (mkStats xs).polA.avg
        (mkStats xs).polA.stdDevSq r).severity = .extreme ↔
      (3 : ℝ) < |(r.pol_a : ℝ) - ((mkStats xs).polA.avg : ℝ)| /
        Real.sqrt (calculateVariance (xs.map (·.pol_a)) : ℝ)) ∧
    (anomalyEntry "Pollution B" r.pol_b (mkStats xs).polB.avg
        (mkStats xs).polB.stdDevSq r ∈ detectAnomaliesRaw (mkStats xs) xs ↔
      (5/2 : ℝ) < |(r.pol_b : ℝ) - ((mkStats xs).polB.avg : ℝ)| /
        Real.sqrt (calculateVariance (xs.map (·.pol_b)) : ℝ)) ∧
    ((anomalyEntry "Pollution B" r.pol_b (mkStats xs).polB.avg
        (mkStats xs).polB.stdDevSq r).severity = .extreme ↔
      (3 : ℝ) < |(r.pol_b : ℝ) - ((mkStats xs).polB.avg : ℝ)| /
        Real.sqrt (calculateVariance (xs.map (·.pol_b)) : ℝ)) := by
  have hposA : 0 < calculateVariance (xs.map (·.pol_a)) :=
    lt_of_le_of_ne (calculateVariance_nonneg _) (Ne.symm hA)
  have hposB : 0 < calculateVariance (xs.map (·.pol_b)) :=
    lt_of_le_of_ne (calculateVariance_nonneg _) (Ne.symm hB)
  refine ⟨?_, ?_, ?_, ?_⟩
  · rw [entryA_mem_raw_iff xs r hr, mkStats_polA_stdDevSq,
      zGuard_iff_real _ _ _ _ hposA (by norm_num)]
    norm_num
  · rw [mkStats_polA_stdDevSq, anomalyEntry_severity_extreme,
      zGuard_iff_real _ _ _ _ hposA (by norm_num)]
    norm_num
  · rw [entryB_mem_raw_iff xs r hr, mkStats_polB_stdDevSq,
      zGuard_iff_real _ _ _ _ hposB (by norm_num)]
    norm_num
  · rw [mkStats_polB_stdDevSq, anomalyEntry_severity_extreme,
      zGuard_iff_real _ _ _ _ hposB (by norm_num)]
    norm_num

/-- Witness for C1 at the concrete list `ex1` and the outlier reading. -/
theorem anomaly_threshold_strict_witness :
    ex1r ∈ ex1 ∧ calculateVariance (ex1.map (·.pol_a)) ≠ 0 ∧
    calculateVariance (ex1.map (·.pol_b)) ≠ 0 ∧
    ((anomalyEntry "Pollution A" ex1r.pol_a (mkStats ex1).polA.avg
        (mkStats ex1).polA.stdDevSq ex1r ∈ detectAnomaliesRaw (mkStats ex1) ex1 ↔
      (5/2 : ℝ) < |(ex1r.pol_a : ℝ) - ((mkStats ex1).polA.avg : ℝ)| /
        Real.sqrt (calculateVariance (ex1.map (·.pol_a)) : ℝ)) ∧
    ((anomalyEntry "Pollution A" ex1r.pol_a (mkStats ex1).polA.avg
        (mkStats ex1).polA.stdDevSq ex1r).severity = .extreme ↔
      (3 : ℝ) < |(ex1r.pol_a : ℝ) - ((mkStats ex1).polA.avg : ℝ)| /
        Real.sqrt (calculateVariance (ex1.map (·.pol_a)) : ℝ)) ∧
    (anomalyEntry "Pollution B" ex1r.pol_b (mkStats ex1).polB.avg
        (mkStats ex1).polB.stdDevSq ex1r ∈ detectAnomaliesRaw (mkStats ex1) ex1 ↔
      (5/2 : ℝ) < |(ex1r.pol_b : ℝ) - ((mkStats ex1).polB.avg : ℝ)| /
        Real.sqrt (calculateVariance (ex1.map (·.pol_b)) : ℝ)) ∧
    ((anomalyEntry "Pollution B" ex1r.pol_b (mkStats ex1).polB.avg
        (mkStats ex1).polB.stdDevSq ex1r).severity = .extreme ↔
      (3 : ℝ) < |(ex1r.pol_b : ℝ) - ((mkStats ex1).polB.avg : ℝ)| /
        Real.sqrt (calculateVariance (ex1.map (·.pol_b)) : ℝ))) :=
  ⟨by decide, by norm_num [calculateVariance, ex1, zeroR, ex1r],
    by norm_num [calculateVariance, ex1, zeroR, ex1r],
    anomaly_threshold_strict ex1 ex1r (by decide)
      (by norm_num [calculateVariance, ex1, zeroR, ex1r])
      (by norm_num [calculateVariance, ex1, zeroR, ex1r])⟩

/-- Totality of the descending-z-score comparator. -/
lemma zDesc_total (a b : Anomaly) : zDesc a b || zDesc b a := by
  simp only [zDesc, Bool.or_eq_true, decide_eq_true_eq]
  exact le_total b.zsq a.zsq

/-- Transitivity of the descending-z-score comparator. -/
lemma zDesc_trans (a b c : Anomaly) :
    zDesc a b → zDesc b c → zDesc a c := by
  simp only [zDesc, decide_eq_true_eq]
  exact fun hab hbc => le_trans hbc hab

/-- C7: for every reading sequence the anomaly list returned by the anomaly
detector has length at most 10 and its entries are in descending order of
z-score (the square root of the stored squared z-score). -/
theorem anomaly_list_top10_sorted (xs : List Reading) :
    (detectAnomalies xs (mkStats xs)).length ≤ 10 ∧
    (detectAnomalies xs (mkStats xs)).Pairwise
      (fun a b => Real.sqrt (b.zsq : ℝ) ≤ Real.sqrt (a.zsq : ℝ)) := by
  constructor
  · exact List.length_take_le _ _
  · have hs := @List.sorted_mergeSort _ zDesc zDesc_trans zDesc_total
      (detectAnomaliesRaw (mkStats xs) xs)
    have hs2 : ((detectAnomaliesRaw (mkStats xs) xs).mergeSort zDesc).Pairwise
        (fun a b => Real.sqrt (b.zsq : ℝ) ≤ Real.sqrt (a.zsq : ℝ)) := by
      refine hs.imp ?_
      intro a b hab
      simp only [zDesc, decide_eq_true_eq] at hab
      exact Real.sqrt_le_sqrt (by exact_mod_cast hab)
    exact hs2.sublist (List.take_sublist _ _)

/-- C8: on an empty reading sequence the context builder returns the fully
zeroed/empty structure by its early return, and the caller's array is left
untouched (the forecaster, whose sort mutates the array, is never invoked). -/
theorem buildAdvancedDataContext_empty (d : Location → Location → ℚ) :
    buildAdvancedDataContext d [] = emptyContext ∧ (analyzeCall d []).2 = [] :=
  ⟨rfl, rfl⟩

/-- Totality of the descending-date comparator. -/
lemma byDateDesc_total (a b : Reading) : byDateDesc a b || byDateDesc b a := by
  simp only [byDateDesc, Bool.or_eq_true, decide_eq_true_eq]
  exact le_total b.sample_dt a.sample_dt

/-- Transitivity of the descending-date comparator. -/
lemma byDateDesc_trans (a b c : Reading) :
    byDateDesc a b → byDateDesc b c → byDateDesc a c := by
  simp only [byDateDesc, decide_eq_true_eq]
  exact fun hab hbc => le_trans hbc hab

/-- C10: a call of the full analysis on a non-empty array leaves the caller's
array sorted descending by sample date — a permutation of the original with
every element's fields unchanged. -/
theorem buildAdvancedDataContext_mutates (d : Location → Location → ℚ)
    (xs : List Reading) (h : xs ≠ []) :
    (analyzeCall d xs).2 = xs.mergeSort byDateDesc ∧
    (analyzeCall d xs).2.Pairwise (fun a b => b.sample_dt ≤ a.sample_dt) ∧
    (analyzeCall d xs).2.Perm xs := by
  have hne : xs.isEmpty = false := by
    cases xs with
    | nil => exact absurd rfl h
    | cons a l => rfl
  have h2 : (analyzeCall d xs).2 = xs.mergeSort byDateDesc := by
    simp [analyzeCall, hne]
  refine ⟨h2, ?_, ?_⟩
  · rw [h2]
    have hs := @List.sorted_mergeSort _ byDateDesc byDateDesc_trans
      byDateDesc_total xs
    exact hs.imp (by intro a b hab; simpa [byDateDesc] using hab)
  · rw [h2]
    exact List.mergeSort_perm xs byDateDesc

/-- Witness for C10 at the concrete two-element list `ex3`. -/
theorem buildAdvancedDataContext_mutates_witness :
    ex3 ≠ [] ∧
    ((analyzeCall exDist ex3).2 = ex3.mergeSort byDateDesc ∧
     (analyzeCall exDist ex3).2.Pairwise (fun a b => b.sample_dt ≤ a.sample_dt) ∧
     (analyzeCall exDist ex3).2.Perm ex3) :=
  ⟨by decide, buildAdvancedDataContext_mutates exDist ex3 (by decide)⟩

/-- The array returned by a call is a fixed point of a further call: sorting
an already sorted array is the identity. -/
lemma analyzeCall_post_fixed (d : Location → Location → ℚ)
    (xs : List Reading) :
    (analyzeCall d (analyzeCall d xs).2).2 = (analyzeCall d xs).2 := by
  cases xs with
  | nil => rfl
  | cons a l =>
    have h2 : (analyzeCall d (a :: l)).2 = (a :: l).mergeSort byDateDesc := rfl
    rw [h2]
    have hsorted := @List.sorted_mergeSort _ byDateDesc byDateDesc_trans
      byDateDesc_total (a :: l)
    have hne2 : ((a :: l).mergeSort byDateDesc).isEmpty = false := by
      have hl : ((a :: l).mergeSort byDateDesc).length = (a :: l).length :=
        List.length_mergeSort _
      cases hm : (a :: l).mergeSort byDateDesc with
      | nil => rw [hm] at hl; simp at hl
      | cons b m => rfl
    have hfix : ((a :: l).mergeSort byDateDesc).mergeSort byDateDesc
        = (a :: l).mergeSort byDateDesc := List.mergeSort_of_sorted hsorted
    simp [analyzeCall, hne2, hfix]

/-- C3 (amended): the analysis result is a function of the array value the
call receives, but the call reorders the caller's array (descending by
sample date); the reordered array is a fixed point, so the second and every
later call agree with each other. -/
theorem analyzeCall_stable_after_first (d : Location → Location → ℚ)
    (xs : List Reading) :
    (analyzeCall d (analyzeCall d xs).2).2 = (analyzeCall d xs).2 ∧
    analyzeCall d (analyzeCall d (analyzeCall d xs).2).2 =
      analyzeCall d (analyzeCall d xs).2 :=
  ⟨analyzeCall_post_fixed d xs, by rw [analyzeCall_post_fixed d xs]⟩

/-- The station summaries of a non-empty input. -/
lemma buildAdvancedDataContext_stationSummary (d : Location → Location → ℚ)
    (xs : List Reading) (h : xs.isEmpty = false) :
    (buildAdvancedDataContext d xs).stationSummary = stationSummaryOf xs := by
  simp [buildAdvancedDataContext, h]

/-- Counterexample to C3 as stated: on the two-station input `ex3` the first
call reorders the caller's array (so the input is not treated as immutable),
and the second call returns a different result — the station summaries appear
in the order of first occurrence of the station ids, which the in-place date
sort swaps. -/
theorem analyzeCall_not_idempotent :
    (analyzeCall exDist ex3).2 ≠ ex3 ∧
    (analyzeCall exDist ex3).1 ≠ (analyzeCall exDist (analyzeCall exDist ex3).2).1 := by
  have hsort : ex3.mergeSort byDateDesc = [r3b, r3a] := by
    simp [ex3, List.mergeSort, byDateDesc, r3a, r3b]
  have h2 : (analyzeCall exDist ex3).2 = [r3b, r3a] := by
    rw [← hsort]; rfl
  constructor
  · rw [h2]
    decide
  · intro hcontra
    have hids := congrArg
      (fun c => c.stationSummary.map (fun s => s.id)) hcontra
    have hA : (analyzeCall exDist ex3).1.stationSummary.map (fun s => s.id)
        = ["alpha", "beta"] := by
      have := buildAdvancedDataContext_stationSummary exDist ex3 rfl
      simp only [analyzeCall]
      rw [this]
      simp [stationSummaryOf, groupByKey, occKeys, mkStationSummary, ex3,
        r3a, r3b]
    have hB : (analyzeCall exDist (analyzeCall exDist ex3).2).1.stationSummary.map
        (fun s => s.id) = ["beta", "alpha"] := by
      rw [h2]
      have := buildAdvancedDataContext_stationSummary exDist [r3b, r3a] rfl
      simp only [analyzeCall]
      rw [this]
      simp [stationSummaryOf, groupByKey, occKeys, mkStationSummary, r3a, r3b]
    simp only [hA, hB] at hids
    exact absurd hids (by decide)

/-- C9: at zero standard deviation the unguarded z-score expression
`Math.abs((value - avg) / stdDev)` evaluates, under IEEE semantics, to
`Infinity` for any value differing from the mean and to `NaN` for values
equal to it; these non-finite values are propagated into the strict `> 2.5`
and `> 3` threshold comparisons (true for `Infinity`, false for `NaN`), which
is exactly the detector's guard `zGuard` at zero variance. -/
theorem zscore_zero_stddev_unguarded (v avg : ℚ) :
    jsZScore v avg 0 = (if v = avg then JsNum.nan else JsNum.inf) ∧
    (jsGt (jsZScore v avg 0) (5/2) = true ↔ v ≠ avg) ∧
    (jsGt (jsZScore v avg 0) 3 = true ↔ v ≠ avg) ∧
    zGuard v avg (some 0) (5/2) = jsGt (jsZScore v avg 0) (5/2) ∧
    zGuard v avg (some 0) 3 = jsGt (jsZScore v avg 0) 3 := by
  by_cases h : v = avg
  · subst h
    refine ⟨by simp [jsZScore], ?_, ?_, ?_, ?_⟩ <;>
      simp [jsZScore, jsGt, zGuard]
  · have hne : v - avg ≠ 0 := sub_ne_zero.mpr h
    have hpos : (0 : ℚ) < (v - avg) ^ 2 := by positivity
    refine ⟨by simp [jsZScore, h], ?_, ?_, ?_, ?_⟩ <;>
      simp [jsZScore, jsGt, zGuard, h, hpos]

/-- Membership in a fold that appends per-element contributions. -/
lemma mem_foldr_append {α β : Type} (g : α → List β) (l : List α) (b : β) :
    b ∈ l.foldr (fun x acc => g x ++ acc) [] ↔ ∃ x ∈ l, b ∈ g x := by
  induction l with
  | nil => simp
  | cons x xs ih => simp [ih]

/-- Counterexample to C2 as stated: on the summary list `exGeo` the analyzer
emits an isolated-risk pattern for the high-risk station `exS1` although the
(low-risk) station `exS2` lies at distance 0, i.e. within 25 km — the
source's neighbour filter only counts high- and medium-risk stations. -/
theorem geo_isolated_counterexample :
    GeoPattern.isolated exS1 ∈ analyzeGeographicPatterns exDist exGeo ∧
    exS2 ∈ exGeo ∧ exS2.id ≠ exS1.id ∧
    exDist exS1.location exS2.location < 25 := by
  refine ⟨?_, by decide, by decide, by decide⟩
  decide

/-- C2 (amended): a hotspot pattern centered on `s` with nearby list `nb` is
emitted exactly when `s` is a high-risk station of the summary and `nb` is
the non-empty list of other high-risk stations within 50 km; an isolated-risk
pattern for `s` is emitted exactly when `s` is a high-risk station and no
other station of high or medium risk (low-risk neighbours do not count) lies
within 25 km. -/
theorem analyzeGeographicPatterns_spec (d : Location → Location → ℚ)
    (summary : List StationSummary) (s : StationSummary)
    (nb : List StationSummary) :
    (GeoPattern.hotspot s nb ∈ analyzeGeographicPatterns d summary ↔
      s ∈ summary ∧ s.riskLevel = .high ∧
      nb = (summary.filter (fun x => decide (x.riskLevel = Risk.high))).filter
        (fun other => decide (other.id ≠ s.id ∧
          d s.location other.location < 50)) ∧
      nb ≠ []) ∧
    (GeoPattern.isolated s ∈ analyzeGeographicPatterns d summary ↔
      s ∈ summary ∧ s.riskLevel = .high ∧
      ∀ other ∈ summary, other.id ≠ s.id →
        d s.location other.location < 25 →
        other.riskLevel ≠ .high ∧ other.riskLevel ≠ .medium) := by
  simp only [analyzeGeographicPatterns]
  constructor
  · rw [List.mem_append]
    constructor
    · intro h
      rcases h with h1 | h2
      · rw [mem_foldr_append] at h1
        obtain ⟨st, hst, hmem⟩ := h1
        rcases List.mem_filter.mp hst with ⟨hstmem, hstrisk⟩
        by_cases hc : (summary.filter
            (fun x => decide (x.riskLevel = Risk.high))).filter
            (fun other => decide (other.id ≠ st.id ∧
              d st.location other.location < 50)) ≠ []
        · rw [if_pos hc] at hmem
          simp only [List.mem_singleton, GeoPattern.hotspot.injEq] at hmem
          obtain ⟨rfl, rfl⟩ := hmem
          exact ⟨hstmem, by simpa using hstrisk, rfl, hc⟩
        · rw [if_neg hc] at hmem
          simp at hmem
      · simp at h2
    · rintro ⟨hmem, hrisk, rfl, hne⟩
      left
      rw [mem_foldr_append]
      refine ⟨s, List.mem_filter.mpr ⟨hmem, by simpa using hrisk⟩, ?_⟩
      rw [if_pos hne]
      simp
  · rw [List.mem_append]
    constructor
    · intro h
      rcases h with h1 | h2
      · rw [mem_foldr_append] at h1
        obtain ⟨st, _, hmem⟩ := h1
        by_cases hc : (summary.filter
            (fun x => decide (x.riskLevel = Risk.high))).filter
            (fun other => decide (other.id ≠ st.id ∧
              d st.location other.location < 50)) ≠ []
        · rw [if_pos hc] at hmem
          simp at hmem
        · rw [if_neg hc] at hmem
          simp at hmem
      · simp only [List.mem_map] at h2
        obtain ⟨st, hst, heq⟩ := h2
        obtain rfl : st = s := by simpa using heq
        rcases List.mem_filter.mp hst with ⟨hstH, hdec⟩
        rcases List.mem_filter.mp hstH with ⟨hmem, hrisk⟩
        refine ⟨hmem, by simpa using hrisk, ?_⟩
        intro other homem hid hdist
        rw [decide_eq_true_eq, List.length_eq_zero, List.filter_eq_nil_iff] at hdec
        have hno := hdec other homem
        simp only [decide_eq_true_eq] at hno
        push_neg at hno
        exact hno hid hdist
    · rintro ⟨hmem, hrisk, hiso⟩
      right
      simp only [List.mem_map]
      refine ⟨s, ?_, rfl⟩
      rw [List.mem_filter]
      refine ⟨List.mem_filter.mpr ⟨hmem, by simpa using hrisk⟩, ?_⟩
      rw [decide_eq_true_eq, List.length_eq_zero, List.filter_eq_nil_iff]
      intro other ho
      simp only [decide_eq_true_eq]
      rintro ⟨hid, hdist, hor⟩
      rcases hiso other ho hid hdist with ⟨hh, hm⟩
      rcases hor with h | h
      exacts [hh h, hm h]

/-- Case analysis of the nested conditional choosing the overall risk. -/
lemma overallRisk_cases (r : ℚ) :
    ((if 30 < r then OverallRisk.critical else if 15 < r then .high
      else if 5 < r then .moderate else .low) = .critical ↔ 30 < r) ∧
    ((if 30 < r then OverallRisk.critical else if 15 < r then .high
      else if 5 < r then .moderate else .low) = .high ↔ 15 < r ∧ r ≤ 30) ∧
    ((if 30 < r then OverallRisk.critical else if 15 < r then .high
      else if 5 < r then .moderate else .low) = .moderate ↔ 5 < r ∧ r ≤ 15) ∧
    ((if 30 < r then OverallRisk.critical else if 15 < r then .high
      else if 5 < r then .moderate else .low) = .low ↔ r ≤ 5) := by
  split_ifs with h1 h2 h3 <;>
    refine ⟨?_, ?_, ?_, ?_⟩ <;> simp_all <;>
    first
      | linarith
      | (constructor <;> linarith)
      | (intro hx; linarith)

/-- C4: the risk assessor returns the exceedance rate
`100 * count(pol_a > 7 or pol_b > 7) / totalReadings`, the critical-reading
count `count(pol_a > 10 or pol_b > 10)`, and the overall risk by strict
comparisons: critical iff rate > 30, high iff 15 < rate <= 30, moderate iff
5 < rate <= 15, else low (rates of exactly 30, 15, 5 fall into the lower
bracket). -/
theorem assessRisks_spec (xs : List Reading) (summary : List StationSummary)
    (h : xs ≠ []) :
    (assessRisks xs summary).exceedanceRate =
      100 * ((xs.filter (fun r => decide (7 < r.pol_a ∨ 7 < r.pol_b))).length : ℚ)
        / xs.length ∧
    (assessRisks xs summary).criticalReadings =
      (xs.filter (fun r => decide (10 < r.pol_a ∨ 10 < r.pol_b))).length ∧
    ((assessRisks xs summary).overallRisk = .critical ↔
      30 < (assessRisks xs summary).exceedanceRate) ∧
    ((assessRisks xs summary).overallRisk = .high ↔
      15 < (assessRisks xs summary).exceedanceRate ∧
        (assessRisks xs summary).exceedanceRate ≤ 30) ∧
    ((assessRisks xs summary).overallRisk = .moderate ↔
      5 < (assessRisks xs summary).exceedanceRate ∧
        (assessRisks xs summary).exceedanceRate ≤ 15) ∧
    ((assessRisks xs summary).overallRisk = .low ↔
      (assessRisks xs summary).exceedanceRate ≤ 5) := by
  have hrate : (assessRisks xs summary).exceedanceRate =
      ((xs.filter (fun r => decide (7 < r.pol_a ∨ 7 < r.pol_b))).length : ℚ)
        / xs.length * 100 := rfl
  have hrisk : (assessRisks xs summary).overallRisk =
      (if 30 < (assessRisks xs summary).exceedanceRate then OverallRisk.critical
       else if 15 < (assessRisks xs summary).exceedanceRate then .high
       else if 5 < (assessRisks xs summary).exceedanceRate then .moderate
       else .low) := rfl
  obtain ⟨hc, hh, hm, hl⟩ :=
    overallRisk_cases ((assessRisks xs summary).exceedanceRate)
  refine ⟨by rw [hrate]; ring, rfl, ?_, ?_, ?_, ?_⟩ <;> rw [hrisk]
  exacts [hc, hh, hm, hl]

/-- Witness for C4 at the two-reading list `ex4` (exceedance rate 50%, one
critical reading, overall risk critical). -/
theorem assessRisks_spec_witness :
    ex4 ≠ [] ∧
    ((assessRisks ex4 []).exceedanceRate =
      100 * ((ex4.filter (fun r => decide (7 < r.pol_a ∨ 7 < r.pol_b))).length : ℚ)
        / ex4.length ∧
    (assessRisks ex4 []).criticalReadings =
      (ex4.filter (fun r => decide (10 < r.pol_a ∨ 10 < r.pol_b))).length ∧
    ((assessRisks ex4 []).overallRisk = .critical ↔
      30 < (assessRisks ex4 []).exceedanceRate) ∧
    ((assessRisks ex4 []).overallRisk = .high ↔
      15 < (assessRisks ex4 []).exceedanceRate ∧
        (assessRisks ex4 []).exceedanceRate ≤ 30) ∧
    ((assessRisks ex4 []).overallRisk = .moderate ↔
      5 < (assessRisks ex4 []).exceedanceRate ∧
        (assessRisks ex4 []).exceedanceRate ≤ 15) ∧
    ((assessRisks ex4 []).overallRisk = .low ↔
      (assessRisks ex4 []).exceedanceRate ≤ 5)) :=
  ⟨by decide, assessRisks_spec ex4 [] (by decide)⟩

/-- Field characterization of a trend record built from slope `s`. -/
lemma mkTrend_props (n : String) (s : ℚ) :
    (mkTrend n s).pollutant = n ∧ (mkTrend n s).slope = s ∧
    ((mkTrend n s).direction = .increasing ↔ 0 < s) ∧
    ((mkTrend n s).direction = .decreasing ↔ ¬ 0 < s) ∧
    ((mkTrend n s).significance = .high ↔ 1/20 < |s|) ∧
    ((mkTrend n s).significance = .moderate ↔ |s| ≤ 1/20) := by
  refine ⟨rfl, rfl, ?_, ?_, ?_, ?_⟩
  · by_cases h : 0 < s <;> simp [mkTrend, h]
  · by_cases h : 0 < s <;> simp [mkTrend, h]
  · have hsig : (mkTrend n s).significance
        = (if 1/20 < |s| then Significance.high else .moderate) := rfl
    by_cases h : 1/20 < |s|
    · rw [hsig, if_pos h]
      exact iff_of_true rfl h
    · rw [hsig, if_neg h]
      exact iff_of_false (by decide) h
  · have hsig : (mkTrend n s).significance
        = (if 1/20 < |s| then Significance.high else .moderate) := rfl
    by_cases h : 1/20 < |s|
    · rw [hsig, if_pos h]
      exact iff_of_false (by decide) (not_le.mpr h)
    · rw [hsig, if_neg h]
      exact iff_of_true rfl (not_lt.mp h)

/-- C5: with fewer than 3 day buckets no trends are produced; otherwise the
trend list contains a record per pollutant exactly when the least-squares
slope of its daily means (the closed-form formula of `calculateTrendSlope`)
exceeds 0.01 in magnitude, with direction increasing iff the slope is
positive and significance high iff the magnitude exceeds 0.05. -/
theorem analyzeTrends_spec (xs : List Reading) :
    ((dailyAverages xs).length < 3 → analyzeTrends xs = []) ∧
    (3 ≤ (dailyAverages xs).length →
      analyzeTrends xs =
        (if 1/100 < |slopeA xs| then [mkTrend "Pollution A" (slopeA xs)]
          else []) ++
        (if 1/100 < |slopeB xs| then [mkTrend "Pollution B" (slopeB xs)]
          else [])) ∧
    (∀ t ∈ analyzeTrends xs,
      1/100 < |t.slope| ∧
      (t.direction = .increasing ↔ 0 < t.slope) ∧
      (t.direction = .decreasing ↔ ¬ 0 < t.slope) ∧
      (t.significance = .high ↔ 1/20 < |t.slope|) ∧
      (t.significance = .moderate ↔ |t.slope| ≤ 1/20)) ∧
    ((∃ t ∈ analyzeTrends xs, t.pollutant = "Pollution A") ↔
      3 ≤ (dailyAverages xs).length ∧ 1/100 < |slopeA xs|) ∧
    ((∃ t ∈ analyzeTrends xs, t.pollutant = "Pollution B") ↔
      3 ≤ (dailyAverages xs).length ∧ 1/100 < |slopeB xs|) := by
  have hnil : (dailyAverages xs).length < 3 → analyzeTrends xs = [] := by
    intro h
    unfold analyzeTrends
    rw [if_neg (by omega)]
  have heq : 3 ≤ (dailyAverages xs).length →
      analyzeTrends xs =
        (if 1/100 < |slopeA xs| then [mkTrend "Pollution A" (slopeA xs)]
          else []) ++
        (if 1/100 < |slopeB xs| then [mkTrend "Pollution B" (slopeB xs)]
          else []) := by
    intro h
    unfold analyzeTrends
    rw [if_pos h]
  refine ⟨hnil, heq, ?_, ?_, ?_⟩
  · intro t ht
    by_cases hlen : 3 ≤ (dailyAverages xs).length
    · rw [heq hlen] at ht
      rcases List.mem_append.mp ht with h1 | h1
      · by_cases hc : 1/100 < |slopeA xs|
        · rw [if_pos hc] at h1
          simp only [List.mem_singleton] at h1
          subst h1
          obtain ⟨-, hs, hp⟩ := mkTrend_props "Pollution A" (slopeA xs)
          rw [hs]
          exact ⟨hc, hp⟩
        · rw [if_neg hc] at h1
          simp at h1
      · by_cases hc : 1/100 < |slopeB xs|
        · rw [if_pos hc] at h1
          simp only [List.mem_singleton] at h1
          subst h1
          obtain ⟨-, hs, hp⟩ := mkTrend_props "Pollution B" (slopeB xs)
          rw [hs]
          exact ⟨hc, hp⟩
        · rw [if_neg hc] at h1
          simp at h1
    · rw [hnil (by omega)] at ht
      simp at ht
  · constructor
    · rintro ⟨t, ht, hname⟩
      by_cases hlen : 3 ≤ (dailyAverages xs).length
      · rw [heq hlen] at ht
        rcases List.mem_append.mp ht with h1 | h1
        · by_cases hc : 1/100 < |slopeA xs|
          · exact ⟨hlen, hc⟩
          · rw [if_neg hc] at h1
            simp at h1
        · by_cases hc : 1/100 < |slopeB xs|
          · rw [if_pos hc] at h1
            simp only [List.mem_singleton] at h1
            subst h1
            have hpn : (mkTrend "Pollution B" (slopeB xs)).pollutant
                = "Pollution B" := rfl
            rw [hpn] at hname
            exact absurd hname (by decide)
          · rw [if_neg hc] at h1
            simp at h1
      · rw [hnil (by omega)] at ht
        simp at ht
    · rintro ⟨hlen, hc⟩
      refine ⟨mkTrend "Pollution A" (slopeA xs), ?_, rfl⟩
      rw [heq hlen]
      exact List.mem_append.mpr (Or.inl (by rw [if_pos hc]; simp))
  · constructor
    · rintro ⟨t, ht, hname⟩
      by_cases hlen : 3 ≤ (dailyAverages xs).length
      · rw [heq hlen] at ht
        rcases List.mem_append.mp ht with h1 | h1
        · by_cases hc : 1/100 < |slopeA xs|
          · rw [if_pos hc] at h1
            simp only [List.mem_singleton] at h1
            subst h1
            have hpn : (mkTrend "Pollution A" (slopeA xs)).pollutant
                = "Pollution A" := rfl
            rw [hpn] at hname
            exact absurd hname (by decide)
          · rw [if_neg hc] at h1
            simp at h1
        · by_cases hc : 1/100 < |slopeB xs|
          · exact ⟨hlen, hc⟩
          · rw [if_neg hc] at h1
            simp at h1
      · rw [hnil (by omega)] at ht
        simp at ht
    · rintro ⟨hlen, hc⟩
      refine ⟨mkTrend "Pollution B" (slopeB xs), ?_, rfl⟩
      rw [heq hlen]
      exact List.mem_append.mpr (Or.inr (by rw [if_pos hc]; simp))

/-- The three-day example has three day buckets. -/
lemma ex5_buckets : 3 ≤ (dailyAverages ex5).length := by
  simp [dailyAverages, groupByKey, occKeys, ex5, dayOf, msPerDay]

/-- Witness for C5 at the three-day list `ex5`. -/
theorem analyzeTrends_spec_witness :
    3 ≤ (dailyAverages ex5).length ∧
    analyzeTrends ex5 =
      (if 1/100 < |slopeA ex5| then [mkTrend "Pollution A" (slopeA ex5)]
        else []) ++
      (if 1/100 < |slopeB ex5| then [mkTrend "Pollution B" (slopeB ex5)]
        else []) :=
  ⟨ex5_buckets, (analyzeTrends_spec ex5).2.1 ex5_buckets⟩

/-- Case analysis of the forecast risk-level conditional. -/
lemma riskLevel_cases (r : ℚ) :
    ((if 40 < r then OverallRisk.high else if 20 < r then .moderate
      else .low) = .high ↔ 40 < r) ∧
    ((if 40 < r then OverallRisk.high else if 20 < r then .moderate
      else .low) = .moderate ↔ 20 < r ∧ r ≤ 40) ∧
    ((if 40 < r then OverallRisk.high else if 20 < r then .moderate
      else .low) = .low ↔ r ≤ 20) := by
  split_ifs with h1 h2 <;> refine ⟨?_, ?_, ?_⟩ <;> simp_all <;>
    first
      | linarith
      | (constructor <;> linarith)
      | (intro hx; linarith)

/-- C6: the forecaster takes the `min(100, floor(0.3 n))` most recent
readings (stable sort descending by sample date); with 10 or fewer records it
produces the empty predictions object, otherwise the per-pollutant trend is
increasing iff the recent mean strictly exceeds the global mean, the
exceedance probability is `100 * count(window reading over 7) / windowSize`,
and the forecast risk level is high iff that probability exceeds 40,
moderate iff above 20 and at most 40, else low. -/
theorem generatePredictions_spec (xs : List Reading) (stats : PollutionStats) :
    recentWindow xs =
      (xs.mergeSort byDateDesc).take (min 100 (3 * xs.length / 10)) ∧
    (recentWindow xs).Pairwise (fun a b => b.sample_dt ≤ a.sample_dt) ∧
    ((recentWindow xs).length ≤ 10 →
      generatePredictions xs stats =
        { shortTerm := none, riskForecast := none }) ∧
    (10 < (recentWindow xs).length →
      generatePredictions xs stats =
        { shortTerm := some (forecastFor xs stats)
          riskForecast := some (riskForecastFor xs) }) ∧
    ((forecastFor xs stats).pollutionA.trend = .increasing ↔
      stats.polA.avg < recentAvgA xs) ∧
    ((forecastFor xs stats).pollutionA.trend = .decreasing ↔
      ¬ stats.polA.avg < recentAvgA xs) ∧
    ((forecastFor xs stats).pollutionB.trend = .increasing ↔
      stats.polB.avg < recentAvgB xs) ∧
    ((forecastFor xs stats).pollutionB.trend = .decreasing ↔
      ¬ stats.polB.avg < recentAvgB xs) ∧
    (riskForecastFor xs).exceedanceProbability =
      100 * (((recentWindow xs).filter
          (fun r => decide (7 < r.pol_a ∨ 7 < r.pol_b))).length : ℚ)
        / (recentWindow xs).length ∧
    ((riskForecastFor xs).riskLevel = .high ↔ 40 < riskProbability xs) ∧
    ((riskForecastFor xs).riskLevel = .moderate ↔
      20 < riskProbability xs ∧ riskProbability xs ≤ 40) ∧
    ((riskForecastFor xs).riskLevel = .low ↔ riskProbability xs ≤ 20) := by
  have htrendA : (forecastFor xs stats).pollutionA.trend =
      (if stats.polA.avg < recentAvgA xs then Direction.increasing
        else .decreasing) := rfl
  have htrendB : (forecastFor xs stats).pollutionB.trend =
      (if stats.polB.avg < recentAvgB xs then Direction.increasing
        else .decreasing) := rfl
  have hrl : (riskForecastFor xs).riskLevel =
      (if 40 < riskProbability xs then OverallRisk.high
        else if 20 < riskProbability xs then .moderate else .low) := rfl
  obtain ⟨hrl1, hrl2, hrl3⟩ := riskLevel_cases (riskProbability xs)
  refine ⟨rfl, ?_, ?_, ?_, ?_, ?_, ?_, ?_, ?_, ?_, ?_, ?_⟩
  · have hs := @List.sorted_mergeSort _ byDateDesc byDateDesc_trans
      byDateDesc_total xs
    have hs2 : (xs.mergeSort byDateDesc).Pairwise
        (fun a b : Reading => b.sample_dt ≤ a.sample_dt) :=
      hs.imp (by intro a b hab; simpa [byDateDesc] using hab)
    exact hs2.sublist (List.take_sublist _ _)
  · intro h
    unfold generatePredictions
    rw [if_neg (by omega)]
  · intro h
    unfold generatePredictions
    rw [if_pos h]
  · by_cases h : stats.polA.avg < recentAvgA xs
    · rw [htrendA, if_pos h]
      exact iff_of_true rfl h
    · rw [htrendA, if_neg h]
      exact iff_of_false (by decide) h
  · by_cases h : stats.polA.avg < recentAvgA xs
    · rw [htrendA, if_pos h]
      exact iff_of_false (by decide) (by simpa using h)
    · rw [htrendA, if_neg h]
      exact iff_of_true rfl h
  · by_cases h : stats.polB.avg < recentAvgB xs
    · rw [htrendB, if_pos h]
      exact iff_of_true rfl h
    · rw [htrendB, if_neg h]
      exact iff_of_false (by decide) h
  · by_cases h : stats.polB.avg < recentAvgB xs
    · rw [htrendB, if_pos h]
      exact iff_of_false (by decide) (by simpa using h)
    · rw [htrendB, if_neg h]
      exact iff_of_true rfl h
  · have hp : (riskForecastFor xs).exceedanceProbability
        = riskProbability xs := rfl
    rw [hp]
    unfold riskProbability
    ring
  · rw [hrl]; exact hrl1
  · rw [hrl]; exact hrl2
  · rw [hrl]; exact hrl3

/-- The forty-reading example has a recent window of 12 records. -/
lemma ex6_window : 10 < (recentWindow ex6).length := by
  have hsorted : ex6.Pairwise (fun a b => byDateDesc a b = true) := by decide
  rw [recentWindow, List.mergeSort_of_sorted hsorted]
  decide

/-- Witness for C6 at the forty-reading list `ex6`. -/
theorem generatePredictions_spec_witness :
    10 < (recentWindow ex6).length ∧
    generatePredictions ex6 (mkStats ex6) =
      { shortTerm := some (forecastFor ex6 (mkStats ex6))
        riskForecast := some (riskForecastFor ex6) } :=
  ⟨ex6_window,
    (generatePredictions_spec ex6 (mkStats ex6)).2.2.2.1 ex6_window⟩

end IHC
